import Mathlib

/-!
Verification of the spiral-galaxy generation core (`src/circuits/simple_spirals/mod.rs`
and `src/main.rs`).

The Rust code works on `u64` machine integers.  We embed `u64` values as `Nat`
and model the wrapping (release-mode) semantics of `u64` multiplication and
addition explicitly with `% 2^64`; `u64` division and remainder never overflow
and are plain `Nat` division and remainder, and `saturating_sub` is `Nat`
subtraction (which is saturating).  Field-side gate polynomials are embedded
over an arbitrary field `F`, with witness values injected via `Nat.cast`
(the Rust code builds its field constants by repeatedly adding `F::ONE`,
which is exactly `Nat.cast`).
-/

/-- The `u64` modulus `2^64`. -/
def U64MOD : Nat := 18446744073709551616

/-- Wrapping `u64` multiplication (Rust release semantics). -/
def umul (a b : Nat) : Nat := (a * b) % U64MOD

/-- Wrapping `u64` addition (Rust release semantics). -/
def uadd (a b : Nat) : Nat := (a + b) % U64MOD

theorem umul_eq_of_lt {a b : Nat} (h : a * b < U64MOD) : umul a b = a * b :=
  Nat.mod_eq_of_lt h

theorem uadd_eq_of_lt {a b : Nat} (h : a + b < U64MOD) : uadd a b = a + b :=
  Nat.mod_eq_of_lt h

/-- `calculate_configuration_mapping` from `simple_spirals/mod.rs`:
decomposes a variant id into
`(spiral_type, num_arms, spiral_quotient, arms_quotient, arms_remainder)`. -/
def calculate_configuration_mapping (variant_id : Nat) : Nat × Nat × Nat × Nat × Nat :=
  let spiral_type := variant_id % 3
  let spiral_quotient := variant_id / 3
  let arms_remainder := spiral_quotient % 6
  let arms_quotient := spiral_quotient / 6
  let num_arms := 3 + arms_remainder
  (spiral_type, num_arms, spiral_quotient, arms_quotient, arms_remainder)

/-- The variant id derived from a seed in `generate_spiral_data` (`main.rs`):
`seed % 41`. -/
def derivedVariant (seed : Nat) : Nat := seed % 41

/-- The quotient derived from a seed (`seed / 41`), the companion value the
variant-selection gate checks against. -/
def derivedQuotient (seed : Nat) : Nat := seed / 41

/-- C1: for every `variant_id < 41`, `calculate_configuration_mapping` returns
`(spiral_type, num_arms, spiral_quotient, arms_quotient, arms_remainder)` with
`variant_id = spiral_quotient*3 + spiral_type`,
`spiral_quotient = arms_quotient*6 + arms_remainder`,
`num_arms = 3 + arms_remainder`, `spiral_type ∈ {0,1,2}` and `num_arms ∈ [3,8]`. -/
theorem config_mapping_decomposition (variant_id : Nat) (h : variant_id < 41) :
    (calculate_configuration_mapping variant_id).1 < 3 ∧
    variant_id =
      (calculate_configuration_mapping variant_id).2.2.1 * 3 +
        (calculate_configuration_mapping variant_id).1 ∧
    (calculate_configuration_mapping variant_id).2.2.1 =
      (calculate_configuration_mapping variant_id).2.2.2.1 * 6 +
        (calculate_configuration_mapping variant_id).2.2.2.2 ∧
    (calculate_configuration_mapping variant_id).2.1 =
      3 + (calculate_configuration_mapping variant_id).2.2.2.2 ∧
    3 ≤ (calculate_configuration_mapping variant_id).2.1 ∧
    (calculate_configuration_mapping variant_id).2.1 ≤ 8 := by
  simp [calculate_configuration_mapping]
  omega

/-- Witness for `config_mapping_decomposition` at `variant_id = 10`. -/
theorem config_mapping_decomposition_witness :
    (10 : Nat) < 41 ∧
    ((calculate_configuration_mapping 10).1 < 3 ∧
      10 =
        (calculate_configuration_mapping 10).2.2.1 * 3 +
          (calculate_configuration_mapping 10).1 ∧
      (calculate_configuration_mapping 10).2.2.1 =
        (calculate_configuration_mapping 10).2.2.2.1 * 6 +
          (calculate_configuration_mapping 10).2.2.2.2 ∧
      (calculate_configuration_mapping 10).2.1 =
        3 + (calculate_configuration_mapping 10).2.2.2.2 ∧
      3 ≤ (calculate_configuration_mapping 10).2.1 ∧
      (calculate_configuration_mapping 10).2.1 ≤ 8) :=
  ⟨by decide, config_mapping_decomposition 10 (by decide)⟩

/-- C7 counterexample: the claimed derived variant of seed 12345 is 10, but
the code (`seed % 41`) derives 4. -/
theorem seed_12345_variant_not_ten : ¬ derivedVariant 12345 = 10 := by decide

/-- C7 (amended): for seed 12345 the derived variant is 4 (not 10), the
derived quotient is 301, and `seed = quotient*41 + variant` holds. -/
theorem seed_12345_derivation :
    derivedVariant 12345 = 4 ∧ derivedQuotient 12345 = 301 ∧
    12345 = derivedQuotient 12345 * 41 + derivedVariant 12345 := by decide

/-- One row of the configuration/variant columns of `SimpleSpiralsCircuit`,
as field values (advice columns 0-9 and 16-17 of `configure`). -/
structure SpiralWitness (F : Type) where
  seed : F
  quotient : F
  variant_id : F
  spiral_type : F
  num_arms : F
  spiral_quotient : F
  arms_quotient : F
  arms_remainder : F
  particles_per_arm : F
  total_particles : F
  triangles_per_arm : F
  total_triangles : F

/-- The `variant_selection` gate of `configure`: selector times
`seed - (quotient*41 + variant_id)`.  The Rust code builds the constant 41 by
adding `F::ONE` forty-one times, which is the numeral `(41 : F)`. -/
def variantSelectionConstraints {F : Type} [Field F] (s : F) (w : SpiralWitness F) :
    List F :=
  [s * (w.seed - (w.quotient * 41 + w.variant_id))]

/-- The seven polynomial constraints of the `config_mapping` gate of
`configure`, in source order. -/
def configMappingConstraints {F : Type} [Field F] (s : F) (w : SpiralWitness F) :
    List F :=
  [s * (w.variant_id - (w.spiral_quotient * 3 + w.spiral_type)),
   s * (w.spiral_quotient - (w.arms_quotient * 6 + w.arms_remainder)),
   s * (w.num_arms - (3 + w.arms_remainder)),
   s * (w.particles_per_arm - 69),
   s * (w.total_particles - w.num_arms * w.particles_per_arm),
   s * (w.triangles_per_arm - w.particles_per_arm),
   s * (w.total_triangles - w.num_arms * w.triangles_per_arm)]

/-- The two constraints of the `particle_verification` gate: `s*(x - x)` and
`s*(y - y)` (placeholders in the source). -/
def particleVerificationConstraints {F : Type} [Field F]
    (s particle_x particle_y : F) : List F :=
  [s * (particle_x - particle_x), s * (particle_y - particle_y)]

/-- The six constraints of the `triangle_verification` gate, each of the form
`s*(v - v)` for a vertex coordinate (placeholders in the source). -/
def triangleVerificationConstraints {F : Type} [Field F]
    (s x1 y1 x2 y2 x3 y3 : F) : List F :=
  [s * (x1 - x1), s * (y1 - y1), s * (x2 - x2),
   s * (y2 - y2), s * (x3 - x3), s * (y3 - y3)]

/-- The single constraint of the `trig_lookup` gate:
`s*(angle_index - angle_index)` (placeholder in the source). -/
def trigLookupConstraints {F : Type} [Field F] (s angle_index : F) : List F :=
  [s * (angle_index - angle_index)]

/-- The honestly derived witness row for a seed: `quotient = seed / 41`,
`variant_id = seed % 41`, the configuration-mapping tuple of the variant,
69 particles and triangles per arm, and the corresponding totals,
all injected into the field. -/
def honestWitness (F : Type) [Field F] (seed : Nat) : SpiralWitness F :=
  let variant_id := derivedVariant seed
  let quotient := derivedQuotient seed
  let c := calculate_configuration_mapping variant_id
  { seed := (seed : F)
    quotient := (quotient : F)
    variant_id := (variant_id : F)
    spiral_type := (c.1 : F)
    num_arms := (c.2.1 : F)
    spiral_quotient := (c.2.2.1 : F)
    arms_quotient := (c.2.2.2.1 : F)
    arms_remainder := (c.2.2.2.2 : F)
    particles_per_arm := (69 : F)
    total_particles := ((c.2.1 * 69 : Nat) : F)
    triangles_per_arm := (69 : F)
    total_triangles := ((c.2.1 * 69 : Nat) : F) }

/-- The single-field corruption of a witness considered by the spec:
`num_arms` is replaced by `num_arms + 1`, everything else kept. -/
def corruptNumArms {F : Type} [Field F] (w : SpiralWitness F) : SpiralWitness F :=
  { w with num_arms := w.num_arms + 1 }

/-- C2: for every seed, the honest witness satisfies every constraint of the
`variant_selection` and `config_mapping` gates (for any selector value), and
replacing `num_arms` by `num_arms + 1` violates at least one `config_mapping`
constraint when the selector is enabled. -/
theorem honest_witness_accepted_corrupt_rejected (F : Type) [Field F]
    (seed : Nat) (s : F) :
    (∀ c ∈ variantSelectionConstraints s (honestWitness F seed), c = 0) ∧
    (∀ c ∈ configMappingConstraints s (honestWitness F seed), c = 0) ∧
    (∃ c ∈ configMappingConstraints 1 (corruptNumArms (honestWitness F seed)),
      c ≠ 0) := by
  have h41 : (derivedQuotient seed * 41 + derivedVariant seed : Nat) = seed := by
    simp [derivedQuotient, derivedVariant]; omega
  have hseed : ((seed : Nat) : F) = (derivedQuotient seed : F) * 41 +
      (derivedVariant seed : F) := by
    rw [show ((seed : Nat) : F) = ((derivedQuotient seed * 41 + derivedVariant seed : Nat) : F) by rw [h41]]
    push_cast
    ring
  refine ⟨?_, ?_, ?_⟩
  · intro c hc
    simp only [variantSelectionConstraints, honestWitness, List.mem_singleton] at hc
    subst hc
    rw [hseed]
    ring
  · intro c hc
    have h3 : (derivedVariant seed / 3 * 3 + derivedVariant seed % 3 : Nat) =
        derivedVariant seed := by omega
    have h6 : (derivedVariant seed / 3 / 6 * 6 + derivedVariant seed / 3 % 6 : Nat) =
        derivedVariant seed / 3 := by omega
    simp only [configMappingConstraints, honestWitness,
      calculate_configuration_mapping, List.mem_cons, List.mem_singleton,
      List.not_mem_nil, or_false] at hc
    rcases hc with hc | hc | hc | hc | hc | hc | hc <;> subst hc
    · rw [show ((derivedVariant seed : Nat) : F) =
          ((derivedVariant seed / 3 * 3 + derivedVariant seed % 3 : Nat) : F) by rw [h3]]
      push_cast
      ring
    · rw [show ((derivedVariant seed / 3 : Nat) : F) =
          ((derivedVariant seed / 3 / 6 * 6 + derivedVariant seed / 3 % 6 : Nat) : F) by rw [h6]]
      push_cast
      ring
    · push_cast
      ring
    · ring_nf
    · push_cast
      ring
    · ring_nf
    · push_cast
      ring
  · refine ⟨1 * ((corruptNumArms (honestWitness F seed)).num_arms -
      (3 + (corruptNumArms (honestWitness F seed)).arms_remainder)), ?_, ?_⟩
    · simp [configMappingConstraints]
    · simp only [corruptNumArms, honestWitness, calculate_configuration_mapping]
      push_cast
      ring_nf
      exact one_ne_zero

/-- C3: the `particle_verification`, `triangle_verification` and `trig_lookup`
gate polynomials are identically zero: every field assignment to their columns
satisfies them, for every selector value. -/
theorem placeholder_gates_identically_zero (F : Type) [Field F]
    (s particle_x particle_y x1 y1 x2 y2 x3 y3 angle_index : F) :
    (∀ c ∈ particleVerificationConstraints s particle_x particle_y, c = 0) ∧
    (∀ c ∈ triangleVerificationConstraints s x1 y1 x2 y2 x3 y3, c = 0) ∧
    (∀ c ∈ trigLookupConstraints s angle_index, c = 0) := by
  refine ⟨?_, ?_, ?_⟩ <;> intro c hc <;>
    simp only [particleVerificationConstraints, triangleVerificationConstraints,
      trigLookupConstraints, List.mem_cons, List.mem_singleton,
      List.not_mem_nil, or_false] at hc
  · rcases hc with hc | hc <;> subst hc <;> ring
  · rcases hc with hc | hc | hc | hc | hc | hc <;> subst hc <;> ring
  · subst hc
    ring


/-- `TRIG_TABLE_SIZE` from `calculate_spiral_point`. -/
def TRIG_TABLE_SIZE : Nat := 32

/-- `SCALE_FACTOR` from `calculate_spiral_point`. -/
def SCALE_FACTOR : Nat := 10000

/-- `SIN_TABLE` from `calculate_spiral_point`: fixed-point sine, scale 10000. -/
def SIN_TABLE : List Int :=
  [0, 1951, 3827, 5556, 7071, 8315, 9239, 9808,
   10000, 9808, 9239, 8315, 7071, 5556, 3827, 1951,
   0, -1951, -3827, -5556, -7071, -8315, -9239, -9808,
   -10000, -9808, -9239, -8315, -7071, -5556, -3827, -1951]

/-- `COS_TABLE` from `calculate_spiral_point`: fixed-point cosine, scale 10000. -/
def COS_TABLE : List Int :=
  [10000, 9808, 9239, 8315, 7071, 5556, 3827, 1951,
   0, -1951, -3827, -5556, -7071, -8315, -9239, -9808,
   -10000, -9808, -9239, -8315, -7071, -5556, -3827, -1951,
   0, 1951, 3827, 5556, 7071, 8315, 9239, 9808]

/-- The per-spiral-type multiplier of the `progression` match inside
`calculate_spiral_point`: the source computes `(t*16)/1000` for type 0
(tight), `(t*4)/1000` for type 1 (loose) and `(t*8)/1000` otherwise
(classic); we factor the three branches as `(t * multiplier) / 1000`. -/
def progressionMultiplier (spiral_type : Nat) : Nat :=
  match spiral_type with
  | 0 => 16
  | 1 => 4
  | _ => 8

/-- `calculate_spiral_point` from `simple_spirals/mod.rs`: fixed-point spiral
point for one `(arm_index, particle_index)` pair.  Returns `(x, y, angle_index)`.
The Rust `cos_val.abs() as u64` is `Int.natAbs`; the three-way `progression`
match is written via `progressionMultiplier`. -/
def calculate_spiral_point
    (arm_index particle_index total_arms spiral_type canvas_size : Nat) :
    Nat × Nat × Nat :=
  let particles_per_arm := 69
  let max_radius := umul canvas_size 4963 / 10000
  let base_angle_index := umul arm_index TRIG_TABLE_SIZE / total_arms
  let t := umul particle_index 1000 / particles_per_arm
  let progression := umul t (progressionMultiplier spiral_type) / 1000
  let angle_index := uadd base_angle_index progression % TRIG_TABLE_SIZE
  let radius := umul t max_radius / 1000
  let sin_val := SIN_TABLE.getD angle_index 0
  let cos_val := COS_TABLE.getD angle_index 0
  let center := canvas_size / 2
  let x := uadd center (umul radius cos_val.natAbs / SCALE_FACTOR)
  let y := uadd center (umul radius sin_val.natAbs / SCALE_FACTOR)
  (x, y, angle_index)

/-- The angle index computed inside `calculate_spiral_point` (named so that
projection facts stay readable). -/
def spAngle (arm_index particle_index total_arms spiral_type : Nat) : Nat :=
  uadd (umul arm_index TRIG_TABLE_SIZE / total_arms)
    (umul (umul particle_index 1000 / 69) (progressionMultiplier spiral_type) /
      1000) %
    TRIG_TABLE_SIZE

/-- The radius computed inside `calculate_spiral_point`. -/
def spRadius (particle_index canvas_size : Nat) : Nat :=
  umul (umul particle_index 1000 / 69) (umul canvas_size 4963 / 10000) / 1000

theorem spiral_point_angle_eq (a p tot s c : Nat) :
    (calculate_spiral_point a p tot s c).2.2 = spAngle a p tot s := rfl

theorem spiral_point_x_eq (a p tot s c : Nat) :
    (calculate_spiral_point a p tot s c).1 =
      uadd (c / 2)
        (umul (spRadius p c) (COS_TABLE.getD (spAngle a p tot s) 0).natAbs /
          SCALE_FACTOR) := rfl

theorem spiral_point_y_eq (a p tot s c : Nat) :
    (calculate_spiral_point a p tot s c).2.1 =
      uadd (c / 2)
        (umul (spRadius p c) (SIN_TABLE.getD (spAngle a p tot s) 0).natAbs /
          SCALE_FACTOR) := rfl

theorem spAngle_lt (a p tot s : Nat) : spAngle a p tot s < 32 :=
  Nat.mod_lt _ (by decide)

theorem progressionMultiplier_le (s : Nat) : progressionMultiplier s ≤ 16 := by
  rcases s with _ | _ | s <;> simp [progressionMultiplier]

theorem sin_natAbs_le (i : Nat) : (SIN_TABLE.getD i 0).natAbs ≤ 10000 := by
  rcases Nat.lt_or_ge i 32 with h | h
  · revert h
    revert i
    decide
  · rw [List.getD_eq_default _ _ (by simpa [SIN_TABLE] using h)]
    decide

theorem cos_natAbs_le (i : Nat) : (COS_TABLE.getD i 0).natAbs ≤ 10000 := by
  rcases Nat.lt_or_ge i 32 with h | h
  · revert h
    revert i
    decide
  · rw [List.getD_eq_default _ _ (by simpa [COS_TABLE] using h)]
    decide

theorem umul_1000_eq (p : Nat) (hp : p < 69) : umul p 1000 = p * 1000 :=
  umul_eq_of_lt (by unfold U64MOD; omega)

theorem umul_4963_eq (c : Nat) (hc : c ≤ 2 ^ 50) : umul c 4963 = c * 4963 :=
  umul_eq_of_lt (by unfold U64MOD; omega)

/-- Under `particle_index < 69` and `canvas_size ≤ 2^50`, no `u64` product in
the radius computation wraps, and the radius is at most
`canvas_size * 4963 / 10000` times the per-mille progress. -/
theorem spRadius_le (p c : Nat) (tb : Nat) (hp : p < 69)
    (hc : c ≤ 2 ^ 50) (ht : p * 1000 / 69 ≤ tb) (htb : tb ≤ 1000) :
    spRadius p c ≤ tb * (c * 4963 / 10000) / 1000 := by
  unfold spRadius
  rw [umul_1000_eq p hp, umul_4963_eq c hc,
    umul_eq_of_lt (lt_of_le_of_lt
      (Nat.mul_le_mul (le_trans ht htb) (by omega : c * 4963 / 10000 ≤ 2 ^ 49))
      (by norm_num [U64MOD]))]
  exact Nat.div_le_div_right (Nat.mul_le_mul_right _ ht)

/-- The trig offset added to the canvas center never exceeds the radius. -/
theorem offset_le_radius (r tv : Nat) (htv : tv ≤ 10000) :
    umul r tv / SCALE_FACTOR ≤ r := by
  calc umul r tv / SCALE_FACTOR ≤ r * tv / SCALE_FACTOR :=
      Nat.div_le_div_right (Nat.mod_le _ _)
    _ ≤ r * 10000 / 10000 := by
      rw [show SCALE_FACTOR = 10000 from rfl]
      exact Nat.div_le_div_right (Nat.mul_le_mul_left r htv)
    _ = r := by omega

/-- Core coordinate bound: the canvas center plus the trig offset (plus a
slack `hs`, used for micro-triangle vertices) stays within the canvas,
provided the linearized radius bound `hcase` holds. -/
theorem center_add_offset_le (p c tb hs tv : Nat) (hp : p < 69)
    (hc : c ≤ 2 ^ 50) (ht : p * 1000 / 69 ≤ tb) (htb : tb ≤ 1000)
    (htv : tv ≤ 10000)
    (hcase : c / 2 + tb * (c * 4963 / 10000) / 1000 + hs ≤ c) :
    uadd (c / 2) (umul (spRadius p c) tv / SCALE_FACTOR) + hs ≤ c := by
  have hrad := spRadius_le p c tb hp hc ht htb
  have hofs := offset_le_radius (spRadius p c) tv htv
  have hm : c * 4963 / 10000 ≤ 2 ^ 49 := by omega
  have hT : tb * (c * 4963 / 10000) / 1000 ≤ 2 ^ 49 :=
    le_trans (Nat.div_le_div_right (Nat.mul_le_mul htb hm)) (by norm_num)
  rw [uadd_eq_of_lt (by unfold U64MOD; omega)]
  omega

/-- Both coordinates of `calculate_spiral_point` stay within the canvas for
`particle_index < 69` and overflow-free canvas sizes. -/
theorem spiral_point_coords_le (a p tot s c : Nat) (hp : p < 69)
    (hc : c ≤ 2 ^ 50) :
    (calculate_spiral_point a p tot s c).1 ≤ c ∧
    (calculate_spiral_point a p tot s c).2.1 ≤ c := by
  have ht : p * 1000 / 69 ≤ 985 := by omega
  have hcase : c / 2 + 985 * (c * 4963 / 10000) / 1000 + 0 ≤ c := by omega
  constructor
  · rw [spiral_point_x_eq]
    have := center_add_offset_le p c 985 0
      (COS_TABLE.getD (spAngle a p tot s) 0).natAbs hp hc ht (by norm_num)
      (cos_natAbs_le _) hcase
    omega
  · rw [spiral_point_y_eq]
    have := center_add_offset_le p c 985 0
      (SIN_TABLE.getD (spAngle a p tot s) 0).natAbs hp hc ht (by norm_num)
      (sin_natAbs_le _) hcase
    omega

/-- `generate_spiral_particles` from `simple_spirals/mod.rs`: iterates
`arm_index ∈ [0,num_arms)`, `particle_index ∈ [0,69)`, pushing positions and
metadata in generation order (embedded as one entry list projected into the
two result vectors). -/
def generate_spiral_particles (spiral_type num_arms canvas_size : Nat) :
    List (Nat × Nat) × List (Nat × Nat × Nat) :=
  let particles_per_arm := 69
  let entries := (List.range num_arms).flatMap fun arm_index =>
    (List.range particles_per_arm).map fun particle_index =>
      let p := calculate_spiral_point arm_index particle_index num_arms
        spiral_type canvas_size
      ((p.1, p.2.1), (arm_index, particle_index, p.2.2))
  (entries.map Prod.fst, entries.map Prod.snd)

theorem generate_particles_length (spiral_type num_arms canvas_size : Nat) :
    (generate_spiral_particles spiral_type num_arms canvas_size).1.length =
      num_arms * 69 := by
  simp [generate_spiral_particles, List.length_flatMap, Function.comp_def,
    List.map_const, List.sum_replicate, smul_eq_mul, Nat.mul_comm]

theorem generate_particles_mem (spiral_type num_arms canvas_size : Nat)
    (pos : Nat × Nat)
    (hmem : pos ∈ (generate_spiral_particles spiral_type num_arms canvas_size).1) :
    ∃ a p, a < num_arms ∧ p < 69 ∧
      pos = ((calculate_spiral_point a p num_arms spiral_type canvas_size).1,
        (calculate_spiral_point a p num_arms spiral_type canvas_size).2.1) := by
  simp only [generate_spiral_particles, List.mem_map, List.mem_flatMap,
    List.mem_range] at hmem
  obtain ⟨e, ⟨a, ha, he⟩, hpos⟩ := hmem
  obtain ⟨p, hp, hep⟩ := he
  exact ⟨a, p, ha, hp, by rw [← hpos, ← hep]⟩

/-- C4: for every spiral type, `num_arms ∈ [3,8]` and positive, overflow-free
canvas size, `generate_spiral_particles` returns exactly `num_arms * 69`
positions, each with `0 ≤ x ≤ canvas_size` and `0 ≤ y ≤ canvas_size`. -/
theorem generate_particles_count_and_bounds
    (spiral_type num_arms canvas_size : Nat) (hna3 : 3 ≤ num_arms)
    (hna8 : num_arms ≤ 8) (hcpos : 0 < canvas_size)
    (hc : canvas_size ≤ 2 ^ 50) :
    (generate_spiral_particles spiral_type num_arms canvas_size).1.length =
      num_arms * 69 ∧
    ∀ pos ∈ (generate_spiral_particles spiral_type num_arms canvas_size).1,
      pos.1 ≤ canvas_size ∧ pos.2 ≤ canvas_size := by
  refine ⟨generate_particles_length _ _ _, ?_⟩
  intro pos hmem
  obtain ⟨a, p, _, hp, hpos⟩ :=
    generate_particles_mem spiral_type num_arms canvas_size pos hmem
  have := spiral_point_coords_le a p num_arms spiral_type canvas_size hp hc
  rw [hpos]
  exact this

/-- Witness for `generate_particles_count_and_bounds` at
`(spiral_type, num_arms, canvas_size) = (2, 3, 420)`. -/
theorem generate_particles_count_and_bounds_witness :
    (3 : Nat) ≤ 3 ∧ (3 : Nat) ≤ 8 ∧ (0 : Nat) < 420 ∧ (420 : Nat) ≤ 2 ^ 50 ∧
    ((generate_spiral_particles 2 3 420).1.length = 3 * 69 ∧
      ∀ pos ∈ (generate_spiral_particles 2 3 420).1,
        pos.1 ≤ 420 ∧ pos.2 ≤ 420) :=
  ⟨by decide, by decide, by decide, by norm_num,
    generate_particles_count_and_bounds 2 3 420 (by decide) (by decide)
      (by decide) (by norm_num)⟩

/-- C6: for `arm_index < total_arms ≤ 8` and `particle_index < 69`,
`calculate_spiral_point` computes `t = particle_index*1000/69 ∈ [0,1000)` and
returns
`angle_index = (arm_index*32/total_arms + t*multiplier/1000) % 32 < 32`,
where the tight multiplier (16) is the largest, the loose multiplier (4) the
smallest and the classic multiplier (8) the middle. -/
theorem spiral_point_angle_formula
    (arm_index particle_index total_arms spiral_type canvas_size : Nat)
    (harm : arm_index < total_arms) (htot : total_arms ≤ 8)
    (hpi : particle_index < 69) :
    particle_index * 1000 / 69 < 1000 ∧
    (calculate_spiral_point arm_index particle_index total_arms spiral_type
        canvas_size).2.2 =
      (arm_index * 32 / total_arms +
        particle_index * 1000 / 69 * progressionMultiplier spiral_type /
          1000) % 32 ∧
    (calculate_spiral_point arm_index particle_index total_arms spiral_type
        canvas_size).2.2 < 32 ∧
    progressionMultiplier 1 < progressionMultiplier 2 ∧
    progressionMultiplier 2 < progressionMultiplier 0 := by
  have h32 : umul arm_index TRIG_TABLE_SIZE = arm_index * 32 := by
    rw [show TRIG_TABLE_SIZE = 32 from rfl]
    exact umul_eq_of_lt (by unfold U64MOD; omega)
  have hp1000 := umul_1000_eq particle_index hpi
  have hmle := progressionMultiplier_le spiral_type
  have htle : particle_index * 1000 / 69 ≤ 985 := by omega
  have hprod :
      particle_index * 1000 / 69 * progressionMultiplier spiral_type ≤
        15760 :=
    le_trans (Nat.mul_le_mul htle hmle) (by norm_num)
  have humul2 :
      umul (particle_index * 1000 / 69) (progressionMultiplier spiral_type) =
        particle_index * 1000 / 69 * progressionMultiplier spiral_type :=
    umul_eq_of_lt (by unfold U64MOD; omega)
  have hb : arm_index * 32 / total_arms ≤ 224 :=
    le_trans (Nat.div_le_self _ _) (by omega)
  have huadd :
      uadd (arm_index * 32 / total_arms)
          (particle_index * 1000 / 69 * progressionMultiplier spiral_type /
            1000) =
        arm_index * 32 / total_arms +
          particle_index * 1000 / 69 * progressionMultiplier spiral_type /
            1000 :=
    uadd_eq_of_lt (by unfold U64MOD; omega)
  refine ⟨by omega, ?_, ?_, by decide, by decide⟩
  · rw [spiral_point_angle_eq]
    unfold spAngle
    rw [h32, hp1000, humul2, huadd, show TRIG_TABLE_SIZE = 32 from rfl]
  · rw [spiral_point_angle_eq]
    exact spAngle_lt _ _ _ _

/-- Witness for `spiral_point_angle_formula` at
`(arm_index, particle_index, total_arms, spiral_type, canvas_size) =
(2, 10, 3, 0, 420)`. -/
theorem spiral_point_angle_formula_witness :
    (2 : Nat) < 3 ∧ (3 : Nat) ≤ 8 ∧ (10 : Nat) < 69 ∧
    (10 * 1000 / 69 < 1000 ∧
      (calculate_spiral_point 2 10 3 0 420).2.2 =
        (2 * 32 / 3 + 10 * 1000 / 69 * progressionMultiplier 0 / 1000) % 32 ∧
      (calculate_spiral_point 2 10 3 0 420).2.2 < 32 ∧
      progressionMultiplier 1 < progressionMultiplier 2 ∧
      progressionMultiplier 2 < progressionMultiplier 0) :=
  ⟨by decide, by decide, by decide,
    spiral_point_angle_formula 2 10 3 0 420 (by decide) (by decide)
      (by decide)⟩

/-- C9: under the preconditions `total_arms ≥ 1`, `arm_index < total_arms`,
`particle_index < 69` and canvas size small enough that the fixed-point
products stay inside `u64`, `calculate_spiral_point` is total and safe: it
returns a result, and the returned angle index is a valid index into both
32-entry trig tables (so every lookup is in bounds; the function contains no
subtraction, so no underflow is possible). -/
theorem spiral_point_total_and_safe
    (arm_index particle_index total_arms spiral_type canvas_size : Nat)
    (htot : 1 ≤ total_arms) (harm : arm_index < total_arms)
    (hpi : particle_index < 69) (hcs : canvas_size ≤ 2 ^ 50) :
    (calculate_spiral_point arm_index particle_index total_arms spiral_type
        canvas_size).2.2 < SIN_TABLE.length ∧
    (calculate_spiral_point arm_index particle_index total_arms spiral_type
        canvas_size).2.2 < COS_TABLE.length ∧
    ∃ x y a,
      calculate_spiral_point arm_index particle_index total_arms spiral_type
        canvas_size = (x, y, a) := by
  have hlt := spAngle_lt arm_index particle_index total_arms spiral_type
  rw [spiral_point_angle_eq] at *
  exact ⟨by simpa [SIN_TABLE] using hlt, by simpa [COS_TABLE] using hlt,
    _, _, _, rfl⟩

/-- Witness for `spiral_point_total_and_safe` at
`(arm_index, particle_index, total_arms, spiral_type, canvas_size) =
(0, 5, 3, 1, 420)`. -/
theorem spiral_point_total_and_safe_witness :
    (1 : Nat) ≤ 3 ∧ (0 : Nat) < 3 ∧ (5 : Nat) < 69 ∧ (420 : Nat) ≤ 2 ^ 50 ∧
    ((calculate_spiral_point 0 5 3 1 420).2.2 < SIN_TABLE.length ∧
      (calculate_spiral_point 0 5 3 1 420).2.2 < COS_TABLE.length ∧
      ∃ x y a, calculate_spiral_point 0 5 3 1 420 = (x, y, a)) :=
  ⟨by decide, by decide, by decide, by norm_num,
    spiral_point_total_and_safe 0 5 3 1 420 (by decide) (by decide)
      (by decide) (by norm_num)⟩

/-- `create_micro_triangle` from `simple_spirals/mod.rs`: a small triangular
"star" around a particle center.  `saturating_sub` is `Nat` subtraction. -/
def create_micro_triangle (center_x center_y size : Nat) :
    Nat × Nat × Nat × Nat × Nat × Nat :=
  let half_size := size / 2
  let x1 := center_x
  let y1 := center_y - half_size
  let x2 := center_x - half_size
  let y2 := uadd center_y half_size
  let x3 := uadd center_x half_size
  let y3 := uadd center_y half_size
  (x1, y1, x2, y2, x3, y3)

theorem create_micro_triangle_eq (cx cy s : Nat) :
    create_micro_triangle cx cy s =
      (cx, cy - s / 2, cx - s / 2, uadd cy (s / 2), uadd cx (s / 2),
        uadd cy (s / 2)) := rfl

/-- The loop body of `generate_spiral_triangles` for one
`(arm_index, particle_index)` pair: bounds-checked indexing into the particle
positions (`if particle_idx < positions.len()`), micro-triangle sizing
(`(6 - (particle_index*4)/69).max(2)`), and the pushed
(vertices, metadata) pair; `none` when the index check fails. -/
def triangleEntry (positions : List (Nat × Nat)) (arm_index particle_index : Nat) :
    Option ((Nat × Nat × Nat × Nat × Nat × Nat) × (Nat × Nat × Nat)) :=
  let particles_per_arm := 69
  let particle_idx := uadd (umul arm_index particles_per_arm) particle_index
  if particle_idx < positions.length then
    let center := positions.getD particle_idx (0, 0)
    let base_size := 6
    let size_reduction := umul particle_index 4 / particles_per_arm
    let triangle_size := max (base_size - size_reduction) 2
    some (create_micro_triangle center.1 center.2 triangle_size,
      (arm_index, particle_index, 0))
  else none

/-- `generate_spiral_triangles` from `simple_spirals/mod.rs`: one
micro-triangle per generated particle, in generation order. -/
def generate_spiral_triangles (spiral_type num_arms canvas_size : Nat) :
    List (Nat × Nat × Nat × Nat × Nat × Nat) × List (Nat × Nat × Nat) :=
  let positions := (generate_spiral_particles spiral_type num_arms canvas_size).1
  let entries := (List.range num_arms).flatMap fun arm_index =>
    (List.range 69).filterMap (triangleEntry positions arm_index)
  (entries.map Prod.fst, entries.map Prod.snd)

theorem filterMap_eq_map_of_forall {α β : Type} (f : α → Option β) (g : α → β)
    (l : List α) (h : ∀ x ∈ l, f x = some (g x)) :
    l.filterMap f = l.map g := by
  induction l with
  | nil => rfl
  | cons x l ih =>
    rw [List.filterMap_cons, h x (by simp), List.map_cons,
      ih fun y hy => h y (by simp [hy])]

theorem flatMap_range_map_length {α : Type} (g : Nat → Nat → α) (n : Nat) :
    ((List.range n).flatMap fun i => (List.range 69).map (g i)).length =
      n * 69 := by
  simp [List.length_flatMap, Function.comp_def, List.map_const,
    List.sum_replicate, smul_eq_mul, Nat.mul_comm]

theorem flatMap_range_map_get {α : Type} (g : Nat → Nat → α) (n a p : Nat)
    (ha : a < n) (hp : p < 69) :
    ((List.range n).flatMap fun i => (List.range 69).map (g i)).get?
        (a * 69 + p) = some (g a p) := by
  induction n with
  | zero => exact absurd ha (Nat.not_lt_zero a)
  | succ n ih =>
    rw [List.range_succ, List.flatMap_append]
    rcases Nat.lt_or_ge a n with h | h
    · rw [List.get?_append (by rw [flatMap_range_map_length]; omega)]
      exact ih h
    · have ha2 : a = n := by omega
      subst ha2
      rw [List.get?_append_right (by rw [flatMap_range_map_length]; omega),
        flatMap_range_map_length, List.flatMap_singleton,
        show a * 69 + p - a * 69 = p from by omega, List.get?_map,
        List.get?_range hp]
      rfl

/-- The particle at flat index `a*69 + p` of `generate_spiral_particles` is
the spiral point of `(a, p)`. -/
theorem generate_particles_get (spiral_type num_arms canvas_size a p : Nat)
    (ha : a < num_arms) (hp : p < 69) :
    (generate_spiral_particles spiral_type num_arms canvas_size).1.get?
        (a * 69 + p) =
      some ((calculate_spiral_point a p num_arms spiral_type canvas_size).1,
        (calculate_spiral_point a p num_arms spiral_type canvas_size).2.1) := by
  show (List.map Prod.fst _).get? _ = _
  rw [List.get?_map, flatMap_range_map_get _ num_arms a p ha hp]
  rfl

/-- For arm counts within the configuration range, the bounds check inside
the triangle loop always succeeds and the entry is the micro-triangle of the
particle at the same `(arm, particle)` position. -/
theorem triangleEntry_eq (spiral_type num_arms canvas_size a p : Nat)
    (ha : a < num_arms) (hna : num_arms ≤ 8) (hp : p < 69) :
    triangleEntry (generate_spiral_particles spiral_type num_arms canvas_size).1
        a p =
      some
        (create_micro_triangle
          (calculate_spiral_point a p num_arms spiral_type canvas_size).1
          (calculate_spiral_point a p num_arms spiral_type canvas_size).2.1
          (max (6 - umul p 4 / 69) 2),
        (a, p, 0)) := by
  have hidx : uadd (umul a 69) p = a * 69 + p := by
    rw [umul_eq_of_lt (by unfold U64MOD; omega)]
    exact uadd_eq_of_lt (by unfold U64MOD; omega)
  have hlen := generate_particles_length spiral_type num_arms canvas_size
  have hget := generate_particles_get spiral_type num_arms canvas_size a p ha hp
  simp only [triangleEntry]
  rw [hidx, if_pos (by omega), List.getD_eq_get?, hget, Option.getD_some]

theorem generate_triangles_length (spiral_type num_arms canvas_size : Nat)
    (hna : num_arms ≤ 8) :
    (generate_spiral_triangles spiral_type num_arms canvas_size).1.length =
      num_arms * 69 := by
  show (List.map Prod.fst _).length = _
  rw [List.length_map]
  have hrw :
      ((List.range num_arms).flatMap fun arm_index =>
        (List.range 69).filterMap
          (triangleEntry
            (generate_spiral_particles spiral_type num_arms canvas_size).1
            arm_index)) =
      (List.range num_arms).flatMap fun arm_index =>
        (List.range 69).map fun particle_index =>
          (create_micro_triangle
            (calculate_spiral_point arm_index particle_index num_arms
              spiral_type canvas_size).1
            (calculate_spiral_point arm_index particle_index num_arms
              spiral_type canvas_size).2.1
            (max (6 - umul particle_index 4 / 69) 2),
          (arm_index, particle_index, 0)) := by
    refine List.flatMap_congr ?_
    intro a ha
    refine filterMap_eq_map_of_forall _ _ _ ?_
    intro p hp
    exact triangleEntry_eq spiral_type num_arms canvas_size a p
      (List.mem_range.mp ha) hna (List.mem_range.mp hp)
  rw [hrw, flatMap_range_map_length]

/-- Every triangle returned by `generate_spiral_triangles` is the
micro-triangle of some generated particle `(a, p)`. -/
theorem generate_triangles_mem (spiral_type num_arms canvas_size : Nat)
    (hna : num_arms ≤ 8) (tri : Nat × Nat × Nat × Nat × Nat × Nat)
    (hmem : tri ∈ (generate_spiral_triangles spiral_type num_arms canvas_size).1) :
    ∃ a p, a < num_arms ∧ p < 69 ∧
      tri = create_micro_triangle
        (calculate_spiral_point a p num_arms spiral_type canvas_size).1
        (calculate_spiral_point a p num_arms spiral_type canvas_size).2.1
        (max (6 - umul p 4 / 69) 2) := by
  simp only [generate_spiral_triangles, List.mem_map, List.mem_flatMap,
    List.mem_filterMap, List.mem_range] at hmem
  obtain ⟨e, ⟨a, ha, p, hp, hep⟩, htri⟩ := hmem
  rw [triangleEntry_eq spiral_type num_arms canvas_size a p ha hna hp] at hep
  refine ⟨a, p, ha, hp, ?_⟩
  rw [← htri, ← Option.some_inj.mp hep]

theorem case_bound_246 (c : Nat) (h5 : 5 ≤ c) :
    c / 2 + 246 * (c * 4963 / 10000) / 1000 + 3 ≤ c := by
  rcases Nat.lt_or_ge c 128 with h | h
  · have hsmall : ∀ x, x < 128 → 5 ≤ x →
        x / 2 + 246 * (x * 4963 / 10000) / 1000 + 3 ≤ x := by decide
    exact hsmall c h h5
  · have h2 : c * 4963 / 10000 * 10000 ≤ c * 4963 := Nat.div_mul_le_self _ _
    have h1 : 246 * (c * 4963 / 10000) / 1000 * 1000 ≤
        246 * (c * 4963 / 10000) := Nat.div_mul_le_self _ _
    generalize hd : 246 * (c * 4963 / 10000) / 1000 = d at h1 ⊢
    generalize he : c * 4963 / 10000 = e at h1 h2
    omega

theorem case_bound_492 (c : Nat) (h5 : 5 ≤ c) :
    c / 2 + 492 * (c * 4963 / 10000) / 1000 + 2 ≤ c := by
  rcases Nat.lt_or_ge c 128 with h | h
  · have hsmall : ∀ x, x < 128 → 5 ≤ x →
        x / 2 + 492 * (x * 4963 / 10000) / 1000 + 2 ≤ x := by decide
    exact hsmall c h h5
  · have h2 : c * 4963 / 10000 * 10000 ≤ c * 4963 := Nat.div_mul_le_self _ _
    have h1 : 492 * (c * 4963 / 10000) / 1000 * 1000 ≤
        492 * (c * 4963 / 10000) := Nat.div_mul_le_self _ _
    generalize hd : 492 * (c * 4963 / 10000) / 1000 = d at h1 ⊢
    generalize he : c * 4963 / 10000 = e at h1 h2
    omega

theorem case_bound_739 (c : Nat) (h5 : 5 ≤ c) :
    c / 2 + 739 * (c * 4963 / 10000) / 1000 + 2 ≤ c := by
  rcases Nat.lt_or_ge c 128 with h | h
  · have hsmall : ∀ x, x < 128 → 5 ≤ x →
        x / 2 + 739 * (x * 4963 / 10000) / 1000 + 2 ≤ x := by decide
    exact hsmall c h h5
  · have h2 : c * 4963 / 10000 * 10000 ≤ c * 4963 := Nat.div_mul_le_self _ _
    have h1 : 739 * (c * 4963 / 10000) / 1000 * 1000 ≤
        739 * (c * 4963 / 10000) := Nat.div_mul_le_self _ _
    generalize hd : 739 * (c * 4963 / 10000) / 1000 = d at h1 ⊢
    generalize he : c * 4963 / 10000 = e at h1 h2
    omega

theorem case_bound_985 (c : Nat) (h5 : 5 ≤ c) :
    c / 2 + 985 * (c * 4963 / 10000) / 1000 + 1 ≤ c := by
  rcases Nat.lt_or_ge c 128 with h | h
  · have hsmall : ∀ x, x < 128 → 5 ≤ x →
        x / 2 + 985 * (x * 4963 / 10000) / 1000 + 1 ≤ x := by decide
    exact hsmall c h h5
  · have h2 : c * 4963 / 10000 * 10000 ≤ c * 4963 := Nat.div_mul_le_self _ _
    have h1 : 985 * (c * 4963 / 10000) / 1000 * 1000 ≤
        985 * (c * 4963 / 10000) := Nat.div_mul_le_self _ _
    generalize hd : 985 * (c * 4963 / 10000) / 1000 = d at h1 ⊢
    generalize he : c * 4963 / 10000 = e at h1 h2
    omega

/-- The spiral point plus the micro-triangle half size stays within the
canvas once `canvas_size ≥ 5`. -/
theorem spiral_point_plus_half_le (a p tot s c : Nat) (hp : p < 69)
    (hc5 : 5 ≤ c) (hc : c ≤ 2 ^ 50) :
    (calculate_spiral_point a p tot s c).1 +
        max (6 - umul p 4 / 69) 2 / 2 ≤ c ∧
    (calculate_spiral_point a p tot s c).2.1 +
        max (6 - umul p 4 / 69) 2 / 2 ≤ c := by
  have hp4 : umul p 4 = p * 4 := umul_eq_of_lt (by unfold U64MOD; omega)
  rw [hp4, spiral_point_x_eq, spiral_point_y_eq]
  rcases Nat.lt_or_ge p 18 with h18 | h18
  · rw [show max (6 - p * 4 / 69) 2 / 2 = 3 from by omega]
    exact ⟨center_add_offset_le p c 246 3 _ hp hc (by omega) (by norm_num)
        (cos_natAbs_le _) (case_bound_246 c hc5),
      center_add_offset_le p c 246 3 _ hp hc (by omega) (by norm_num)
        (sin_natAbs_le _) (case_bound_246 c hc5)⟩
  rcases Nat.lt_or_ge p 35 with h35 | h35
  · rw [show max (6 - p * 4 / 69) 2 / 2 = 2 from by omega]
    exact ⟨center_add_offset_le p c 492 2 _ hp hc (by omega) (by norm_num)
        (cos_natAbs_le _) (case_bound_492 c hc5),
      center_add_offset_le p c 492 2 _ hp hc (by omega) (by norm_num)
        (sin_natAbs_le _) (case_bound_492 c hc5)⟩
  rcases Nat.lt_or_ge p 52 with h52 | h52
  · rw [show max (6 - p * 4 / 69) 2 / 2 = 2 from by omega]
    exact ⟨center_add_offset_le p c 739 2 _ hp hc (by omega) (by norm_num)
        (cos_natAbs_le _) (case_bound_739 c hc5),
      center_add_offset_le p c 739 2 _ hp hc (by omega) (by norm_num)
        (sin_natAbs_le _) (case_bound_739 c hc5)⟩
  · rw [show max (6 - p * 4 / 69) 2 / 2 = 1 from by omega]
    exact ⟨center_add_offset_le p c 985 1 _ hp hc (by omega) (by norm_num)
        (cos_natAbs_le _) (case_bound_985 c hc5),
      center_add_offset_le p c 985 1 _ hp hc (by omega) (by norm_num)
        (sin_natAbs_le _) (case_bound_985 c hc5)⟩

/-- C5 counterexample: at `(spiral_type, num_arms, canvas_size) = (0, 3, 1)`
the very first generated micro-triangle has vertices with coordinate 3,
outside `[0, 1]`: micro-triangle vertices are not clamped to the canvas. -/
theorem triangle_vertex_out_of_canvas :
    ∃ tri ∈ (generate_spiral_triangles 0 3 1).1,
      ¬(tri.1 ≤ 1 ∧ tri.2.1 ≤ 1 ∧ tri.2.2.1 ≤ 1 ∧ tri.2.2.2.1 ≤ 1 ∧
        tri.2.2.2.2.1 ≤ 1 ∧ tri.2.2.2.2.2 ≤ 1) := by
  refine ⟨(0, 0, 0, 3, 3, 3), ?_, by decide⟩
  have h := triangleEntry_eq 0 3 1 0 0 (by decide) (by decide) (by decide)
  have hpt : calculate_spiral_point 0 0 3 0 1 = (0, 0, 0) := by decide
  rw [hpt] at h
  simp only [generate_spiral_triangles, List.mem_map, List.mem_flatMap,
    List.mem_filterMap, List.mem_range]
  refine ⟨(create_micro_triangle 0 0 (max (6 - umul 0 4 / 69) 2), (0, 0, 0)),
    ⟨0, by decide, 0, by decide, ?_⟩, by decide⟩
  rw [h]

/-- C5 (amended): for `num_arms ∈ [3,8]` and `5 ≤ canvas_size` (within the
overflow-free range), `generate_spiral_triangles` returns exactly as many
triangles as `generate_spiral_particles` returns particles, and every vertex
coordinate of every triangle lies in `[0, canvas_size]`.  (For
`canvas_size < 5` a vertex can exceed the canvas, see the counterexample.) -/
theorem generate_triangles_count_and_bounds (spiral_type num_arms canvas_size : Nat)
    (hna3 : 3 ≤ num_arms) (hna8 : num_arms ≤ 8) (hc5 : 5 ≤ canvas_size)
    (hc : canvas_size ≤ 2 ^ 50) :
    (generate_spiral_triangles spiral_type num_arms canvas_size).1.length =
      (generate_spiral_particles spiral_type num_arms canvas_size).1.length ∧
    ∀ tri ∈ (generate_spiral_triangles spiral_type num_arms canvas_size).1,
      tri.1 ≤ canvas_size ∧ tri.2.1 ≤ canvas_size ∧
      tri.2.2.1 ≤ canvas_size ∧ tri.2.2.2.1 ≤ canvas_size ∧
      tri.2.2.2.2.1 ≤ canvas_size ∧ tri.2.2.2.2.2 ≤ canvas_size := by
  refine ⟨by rw [generate_triangles_length spiral_type num_arms canvas_size hna8,
    generate_particles_length], ?_⟩
  intro tri hmem
  obtain ⟨a, p, ha, hp, htri⟩ :=
    generate_triangles_mem spiral_type num_arms canvas_size hna8 tri hmem
  have hxy := spiral_point_coords_le a p num_arms spiral_type canvas_size hp hc
  have hplus := spiral_point_plus_half_le a p num_arms spiral_type canvas_size
    hp hc5 hc
  have hux : uadd (calculate_spiral_point a p num_arms spiral_type canvas_size).1
      (max (6 - umul p 4 / 69) 2 / 2) =
      (calculate_spiral_point a p num_arms spiral_type canvas_size).1 +
      max (6 - umul p 4 / 69) 2 / 2 :=
    uadd_eq_of_lt (by unfold U64MOD; omega)
  have huy : uadd (calculate_spiral_point a p num_arms spiral_type canvas_size).2.1
      (max (6 - umul p 4 / 69) 2 / 2) =
      (calculate_spiral_point a p num_arms spiral_type canvas_size).2.1 +
      max (6 - umul p 4 / 69) 2 / 2 :=
    uadd_eq_of_lt (by unfold U64MOD; omega)
  subst htri
  rw [create_micro_triangle_eq]
  exact ⟨hxy.1, le_trans (Nat.sub_le _ _) hxy.2,
    le_trans (Nat.sub_le _ _) hxy.1, by rw [huy]; exact hplus.2,
    by rw [hux]; exact hplus.1, by rw [huy]; exact hplus.2⟩

/-- Witness for `generate_triangles_count_and_bounds` at
`(spiral_type, num_arms, canvas_size) = (1, 4, 420)`. -/
theorem generate_triangles_count_and_bounds_witness :
    (3 : Nat) ≤ 4 ∧ (4 : Nat) ≤ 8 ∧ (5 : Nat) ≤ 420 ∧ (420 : Nat) ≤ 2 ^ 50 ∧
    ((generate_spiral_triangles 1 4 420).1.length =
        (generate_spiral_particles 1 4 420).1.length ∧
      ∀ tri ∈ (generate_spiral_triangles 1 4 420).1,
        tri.1 ≤ 420 ∧ tri.2.1 ≤ 420 ∧ tri.2.2.1 ≤ 420 ∧
        tri.2.2.2.1 ≤ 420 ∧ tri.2.2.2.2.1 ≤ 420 ∧ tri.2.2.2.2.2 ≤ 420) :=
  ⟨by decide, by decide, by decide, by norm_num,
    generate_triangles_count_and_bounds 1 4 420 (by decide) (by decide)
      (by decide) (by norm_num)⟩

/-- C10: every micro-triangle of `generate_spiral_triangles` belongs to a
particle `(a, p)`; its size reduction `(p*4)/69` never exceeds 3, so its
computed size `max (6 - (p*4)/69) 2 = 6 - (p*4)/69` lies in `[3,6]` (the
minimum-2 clamp never binds), and each of its three vertices differs from the
particle center by at most 3 in each coordinate. -/
theorem generate_triangles_micro_sizes (spiral_type num_arms canvas_size : Nat)
    (hna3 : 3 ≤ num_arms) (hna8 : num_arms ≤ 8) (hc : canvas_size ≤ 2 ^ 50) :
    ∀ tri ∈ (generate_spiral_triangles spiral_type num_arms canvas_size).1,
      ∃ a p cx cy, a < num_arms ∧ p < 69 ∧
        cx = (calculate_spiral_point a p num_arms spiral_type canvas_size).1 ∧
        cy = (calculate_spiral_point a p num_arms spiral_type canvas_size).2.1 ∧
        umul p 4 / 69 ≤ 3 ∧
        max (6 - umul p 4 / 69) 2 = 6 - umul p 4 / 69 ∧
        3 ≤ 6 - umul p 4 / 69 ∧ 6 - umul p 4 / 69 ≤ 6 ∧
        tri = create_micro_triangle cx cy (max (6 - umul p 4 / 69) 2) ∧
        (cx - tri.1 ≤ 3 ∧ tri.1 - cx ≤ 3) ∧
        (cy - tri.2.1 ≤ 3 ∧ tri.2.1 - cy ≤ 3) ∧
        (cx - tri.2.2.1 ≤ 3 ∧ tri.2.2.1 - cx ≤ 3) ∧
        (cy - tri.2.2.2.1 ≤ 3 ∧ tri.2.2.2.1 - cy ≤ 3) ∧
        (cx - tri.2.2.2.2.1 ≤ 3 ∧ tri.2.2.2.2.1 - cx ≤ 3) ∧
        (cy - tri.2.2.2.2.2 ≤ 3 ∧ tri.2.2.2.2.2 - cy ≤ 3) := by
  intro tri hmem
  obtain ⟨a, p, ha, hp, htri⟩ :=
    generate_triangles_mem spiral_type num_arms canvas_size hna8 tri hmem
  have hp4 : umul p 4 = p * 4 := umul_eq_of_lt (by unfold U64MOD; omega)
  have hxy := spiral_point_coords_le a p num_arms spiral_type canvas_size hp hc
  refine ⟨a, p, _, _, ha, hp, rfl, rfl, by rw [hp4]; omega,
    by rw [hp4]; omega, by rw [hp4]; omega, by omega, htri, ?_⟩
  have hhalf : max (6 - umul p 4 / 69) 2 / 2 ≤ 3 := by rw [hp4]; omega
  have hux : uadd (calculate_spiral_point a p num_arms spiral_type canvas_size).1
      (max (6 - umul p 4 / 69) 2 / 2) =
      (calculate_spiral_point a p num_arms spiral_type canvas_size).1 +
      max (6 - umul p 4 / 69) 2 / 2 :=
    uadd_eq_of_lt (by unfold U64MOD; omega)
  have huy : uadd (calculate_spiral_point a p num_arms spiral_type canvas_size).2.1
      (max (6 - umul p 4 / 69) 2 / 2) =
      (calculate_spiral_point a p num_arms spiral_type canvas_size).2.1 +
      max (6 - umul p 4 / 69) 2 / 2 :=
    uadd_eq_of_lt (by unfold U64MOD; omega)
  subst htri
  rw [create_micro_triangle_eq, hux, huy]
  dsimp only
  omega

/-- Witness for `generate_triangles_micro_sizes` at
`(spiral_type, num_arms, canvas_size) = (0, 3, 420)`. -/
theorem generate_triangles_micro_sizes_witness :
    (3 : Nat) ≤ 3 ∧ (3 : Nat) ≤ 8 ∧ (420 : Nat) ≤ 2 ^ 50 ∧
    (∀ tri ∈ (generate_spiral_triangles 0 3 420).1,
      ∃ a p cx cy, a < 3 ∧ p < 69 ∧
        cx = (calculate_spiral_point a p 3 0 420).1 ∧
        cy = (calculate_spiral_point a p 3 0 420).2.1 ∧
        umul p 4 / 69 ≤ 3 ∧
        max (6 - umul p 4 / 69) 2 = 6 - umul p 4 / 69 ∧
        3 ≤ 6 - umul p 4 / 69 ∧ 6 - umul p 4 / 69 ≤ 6 ∧
        tri = create_micro_triangle cx cy (max (6 - umul p 4 / 69) 2) ∧
        (cx - tri.1 ≤ 3 ∧ tri.1 - cx ≤ 3) ∧
        (cy - tri.2.1 ≤ 3 ∧ tri.2.1 - cy ≤ 3) ∧
        (cx - tri.2.2.1 ≤ 3 ∧ tri.2.2.1 - cx ≤ 3) ∧
        (cy - tri.2.2.2.1 ≤ 3 ∧ tri.2.2.2.1 - cy ≤ 3) ∧
        (cx - tri.2.2.2.2.1 ≤ 3 ∧ tri.2.2.2.2.1 - cx ≤ 3) ∧
        (cy - tri.2.2.2.2.2 ≤ 3 ∧ tri.2.2.2.2.2 - cy ≤ 3)) :=
  ⟨by decide, by decide, by norm_num,
    generate_triangles_micro_sizes 0 3 420 (by decide) (by decide)
      (by norm_num)⟩

/-- The particle-generation region of `synthesize`: iterating
`particle_positions.zip(particle_metadata).enumerate()`, row `i` gets its
selector enabled and its advice cells assigned exactly when `i < 50`.
The result lists the `(row, (position, metadata))` pairs actually assigned. -/
def particleRegionAssignments {F : Type}
    (particle_positions : List (F × F))
    (particle_metadata : List (F × F × F)) :
    List (Nat × ((F × F) × (F × F × F))) :=
  ((particle_positions.zip particle_metadata).enum).filter fun e => e.1 < 50

/-- The triangle-generation region of `synthesize`: same 50-row truncation
over `triangle_vertices.zip(triangle_metadata).enumerate()`. -/
def triangleRegionAssignments {F : Type}
    (triangle_vertices : List (F × F × F × F × F × F))
    (triangle_metadata : List (F × F × F)) :
    List (Nat × ((F × F × F × F × F × F) × (F × F × F))) :=
  ((triangle_vertices.zip triangle_metadata).enum).filter fun e => e.1 < 50

theorem enumFrom_filter_lt {α : Type} (l : List α) :
    ∀ k n, (List.enumFrom k l).filter (fun e => e.1 < n) =
      List.enumFrom k (l.take (n - k)) := by
  induction l with
  | nil => intro k n; simp
  | cons a l ih =>
    intro k n
    rcases Nat.lt_or_ge k n with h | h
    · rw [show n - k = (n - (k + 1)) + 1 from by omega]
      simp only [List.enumFrom, List.take, List.filter]
      rw [show decide (k < n) = true from by simpa using h, ih (k + 1) n]
    · rw [show n - k = 0 from by omega]
      simp only [List.take, List.enumFrom, List.filter]
      rw [show decide (k < n) = false from by simpa using Nat.not_lt.mpr h,
        ih (k + 1) n, show n - (k + 1) = 0 from by omega]
      simp

theorem enum_filter_lt {α : Type} (l : List α) (n : Nat) :
    l.enum.filter (fun e => e.1 < n) = (l.take n).enum := by
  rw [show l.enum = List.enumFrom 0 l from rfl, enumFrom_filter_lt l 0 n,
    Nat.sub_zero]
  rfl

/-- C8: witness assignment truncates to the fixed 50-row budget in generation
order: the particle region assigns (and enables the selector for) exactly the
rows of the first 50 zipped particle entries, the triangle region exactly the
rows of the first 50 zipped triangle entries, and no row index 50 or beyond
is ever assigned or enabled in either region. -/
theorem synthesize_truncates_to_50_rows (F : Type)
    (particle_positions : List (F × F))
    (particle_metadata : List (F × F × F))
    (triangle_vertices : List (F × F × F × F × F × F))
    (triangle_metadata : List (F × F × F)) :
    particleRegionAssignments particle_positions particle_metadata =
      ((particle_positions.zip particle_metadata).take 50).enum ∧
    (∀ e ∈ particleRegionAssignments particle_positions particle_metadata,
      e.1 < 50) ∧
    triangleRegionAssignments triangle_vertices triangle_metadata =
      ((triangle_vertices.zip triangle_metadata).take 50).enum ∧
    ∀ e ∈ triangleRegionAssignments triangle_vertices triangle_metadata,
      e.1 < 50 := by
  refine ⟨enum_filter_lt _ 50, ?_, enum_filter_lt _ 50, ?_⟩
  · intro e he
    simp only [particleRegionAssignments, List.mem_filter] at he
    exact of_decide_eq_true he.2
  · intro e he
    simp only [triangleRegionAssignments, List.mem_filter] at he
    exact of_decide_eq_true he.2
